import Mathlib

/-!
Schedule controller (`pkg/controller/schedulecontroller/schedule_controller.go`)

A shallow embedding of the schedule controller of `shipper` and the
verification of its natural-language specification.

* Go values of reference kind that the controller distinguishes from their
  zero value are embedded with an explicit `nil`: a `map[string]string` is
  `Option (List (String × String))`, a slice `[]T` is `Option (List T)`.
* `*v1.Release` pointers are addresses into a heap of Release cells, so that
  the difference between the cached object and its deep copy is visible.
* Calls to the collaborators (listers, clientset, recorder, work queue,
  `runtime.HandleError`) are recorded, in order, in a trace.
* A Go panic is an explicit outcome.
-/

set_option autoImplicit false

namespace Shipper

/-! ## Constants of the source file -/

abbrev controllerAgentName : String := "schedule-controller"
abbrev SuccessSynced : String := "Synced"
abbrev MessageResourceSynced : String := "Release synced successfully"
abbrev WaitingForStrategy : String := "WaitingForStrategy"
abbrev PhaseLabel : String := "phase"
abbrev ReleaseLabel : String := "release"
abbrev WaitingForSchedulingPhase : String := "WaitingForScheduling"
abbrev ShipperAPIVersion : String := "stable.shipper/v1"
abbrev CapacityTargetKind : String := "CapacityTarget"
abbrev InstallationTargetKind : String := "InstallationTarget"
abbrev TrafficTargetKind : String := "TrafficTarget"

/-- The value of `corev1.EventTypeNormal`. -/
abbrev EventTypeNormal : String := "Normal"

/-! ## Go maps and slices -/

/-- A Go `map[string]string`: `none` is the nil map, `some kvs` a non-nil map
held as an association list. -/
abbrev GoMap := Option (List (String × String))

/-- A Go slice `[]T`: `none` is the nil slice. -/
abbrev Slice (α : Type) := Option (List α)

/-- Lookup in an association list; the first binding of the key wins. -/
def assocGet : List (String × String) → String → Option String
  | [], _ => none
  | (k, v) :: rest, key => if k = key then some v else assocGet rest key

/-- Assignment in an association list: the binding of the key is overwritten
in place, a new key is added at the end. -/
def assocSet : List (String × String) → String → String → List (String × String)
  | [], key, val => [(key, val)]
  | (k, v) :: rest, key, val =>
    if k = key then (k, val) :: rest else (k, v) :: assocSet rest key val

/-- The comma-ok read `val, ok := m[key]`: `some val` when `ok`, `none`
otherwise.  Reading a nil map is allowed and finds nothing. -/
def mapGet (m : GoMap) (key : String) : Option String :=
  match m with
  | none => none
  | some kvs => assocGet kvs key

/-- The write `m[key] = val`.  Writing to a nil map panics: `none`. -/
def mapSet (m : GoMap) (key val : String) : Option GoMap :=
  match m with
  | none => none
  | some kvs => some (some (assocSet kvs key val))

/-- The elements of a slice; a nil slice has none. -/
def sliceList {α : Type} (s : Slice α) : List α :=
  match s with
  | none => []
  | some xs => xs

/-- Go `len(s)`. -/
def sliceLen {α : Type} (s : Slice α) : Nat := (sliceList s).length

/-! ## API objects (`pkg/apis/shipper/v1`, `metav1`) -/

/-- Modelled from the spec: `metav1.TypeMeta`, whose declaration is not in the
source file; the two fields the builders set. -/
structure TypeMeta where
  APIVersion : String
  Kind : String
deriving DecidableEq, Repr

/-- Modelled from the spec: `metav1.ObjectMeta`, whose declaration is not in
the source file; the fields the controller reads or writes.  Fields a
composite literal leaves out have their zero value. -/
structure ObjectMeta where
  Name : String
  Namespace : String
  Labels : GoMap
deriving DecidableEq, Repr

/-- Modelled from the spec: `v1.ClusterSelector`, whose declaration is not in
the source file; the selection criteria of a shipment order, which the
controller never inspects. -/
structure ClusterSelector where
  criteria : String
deriving DecidableEq, Repr

/-- Modelled from the spec: the shipment order of a Release (type declaration
not in the source file). -/
structure ShipmentOrder where
  ClusterSelectors : Slice ClusterSelector
deriving DecidableEq, Repr

/-- Modelled from the spec: the environment of a Release (type declaration not
in the source file): the shipment order and the resolved cluster names. -/
structure ReleaseEnvironment where
  ShipmentOrder : ShipmentOrder
  Clusters : Slice String
deriving DecidableEq, Repr

/-- Modelled from the spec: `v1.Release` (type declaration not in the source
file). -/
structure Release where
  ObjectMeta : ObjectMeta
  Environment : ReleaseEnvironment
deriving DecidableEq, Repr

/-- Modelled from the spec: `v1.Cluster` (type declaration not in the source
file); only its name is read. -/
structure Cluster where
  Name : String
deriving DecidableEq, Repr

/-- Modelled from the spec: `v1.ClusterCapacityStatus` (type declaration not in
the source file). -/
structure ClusterCapacityStatus where
  Name : String
  Status : String
  AchievedReplicas : Nat
deriving DecidableEq, Repr

/-- Modelled from the spec: `v1.ClusterCapacityTarget` (type declaration not in
the source file). -/
structure ClusterCapacityTarget where
  Name : String
  Replicas : Nat
deriving DecidableEq, Repr

/-- Modelled from the spec: `v1.ClusterTrafficStatus` (type declaration not in
the source file). -/
structure ClusterTrafficStatus where
  Name : String
  Status : String
  AchievedTraffic : Nat
deriving DecidableEq, Repr

/-- Modelled from the spec: `v1.ClusterTrafficTarget` (type declaration not in
the source file). -/
structure ClusterTrafficTarget where
  Name : String
  TargetTraffic : Nat
deriving DecidableEq, Repr

/-- Modelled from the spec: `v1.ClusterInstallationStatus` (type declaration
not in the source file). -/
structure ClusterInstallationStatus where
  Name : String
  Status : String
deriving DecidableEq, Repr

/-- Modelled from the spec: `v1.CapacityTargetSpec`. -/
structure CapacityTargetSpec where
  Clusters : Slice ClusterCapacityTarget
deriving DecidableEq, Repr

/-- Modelled from the spec: `v1.CapacityTargetStatus`. -/
structure CapacityTargetStatus where
  Clusters : Slice ClusterCapacityStatus
deriving DecidableEq, Repr

/-- Modelled from the spec: `v1.CapacityTarget` (type declaration not in the
source file). -/
structure CapacityTarget where
  TypeMeta : TypeMeta
  ObjectMeta : ObjectMeta
  Spec : CapacityTargetSpec
  Status : CapacityTargetStatus
deriving DecidableEq, Repr

/-- Modelled from the spec: `v1.TrafficTargetSpec`. -/
structure TrafficTargetSpec where
  Clusters : Slice ClusterTrafficTarget
deriving DecidableEq, Repr

/-- Modelled from the spec: `v1.TrafficTargetStatus`. -/
structure TrafficTargetStatus where
  Clusters : Slice ClusterTrafficStatus
deriving DecidableEq, Repr

/-- Modelled from the spec: `v1.TrafficTarget` (type declaration not in the
source file). -/
structure TrafficTarget where
  TypeMeta : TypeMeta
  ObjectMeta : ObjectMeta
  Spec : TrafficTargetSpec
  Status : TrafficTargetStatus
deriving DecidableEq, Repr

/-- Modelled from the spec: `v1.InstallationTargetSpec`; the installation spec
is the plain list of cluster names. -/
structure InstallationTargetSpec where
  Clusters : Slice String
deriving DecidableEq, Repr

/-- Modelled from the spec: `v1.InstallationTargetStatus`. -/
structure InstallationTargetStatus where
  Clusters : Slice ClusterInstallationStatus
deriving DecidableEq, Repr

/-- Modelled from the spec: `v1.InstallationTarget` (type declaration not in
the source file). -/
structure InstallationTarget where
  TypeMeta : TypeMeta
  ObjectMeta : ObjectMeta
  Spec : InstallationTargetSpec
  Status : InstallationTargetStatus
deriving DecidableEq, Repr

/-! ## Target builders (source lines 232-322) -/

/-- Function `NewCapacityTarget`: two slices of `len(targetClustersNames)` zero values
are made, the `range` loop assigns both at index `i`, and the object literal is
built around them. -/
def NewCapacityTarget (targetClustersNames : Slice String) (release : Release)
    (releaseId : String) : CapacityTarget :=
  let targetClustersCount := sliceLen targetClustersNames
  let clusterCapacityStatuses : List ClusterCapacityStatus :=
    List.replicate targetClustersCount { Name := "", Status := "", AchievedReplicas := 0 }
  let clusterCapacityTargets : List ClusterCapacityTarget :=
    List.replicate targetClustersCount { Name := "", Replicas := 0 }
  let loop := (sliceList targetClustersNames).enum.foldl
    (fun st iv =>
      (st.1.set iv.1 { Name := iv.2, Status := "unknown", AchievedReplicas := 0 },
       st.2.set iv.1 { Name := iv.2, Replicas := 0 }))
    (clusterCapacityStatuses, clusterCapacityTargets)
  { TypeMeta := { APIVersion := ShipperAPIVersion, Kind := CapacityTargetKind }
    ObjectMeta :=
      { Name := release.ObjectMeta.Name
        Namespace := ""
        Labels := some [(ReleaseLabel, releaseId)] }
    Spec := { Clusters := some loop.2 }
    Status := { Clusters := some loop.1 } }

/-- Function `NewTrafficTarget`: as `NewCapacityTarget`, for traffic. -/
def NewTrafficTarget (targetClustersNames : Slice String) (release : Release)
    (releaseId : String) : TrafficTarget :=
  let targetClustersCount := sliceLen targetClustersNames
  let clusterTrafficStatuses : List ClusterTrafficStatus :=
    List.replicate targetClustersCount { Name := "", Status := "", AchievedTraffic := 0 }
  let clusterTrafficTargets : List ClusterTrafficTarget :=
    List.replicate targetClustersCount { Name := "", TargetTraffic := 0 }
  let loop := (sliceList targetClustersNames).enum.foldl
    (fun st iv =>
      (st.1.set iv.1 { Name := iv.2, Status := "unknown", AchievedTraffic := 0 },
       st.2.set iv.1 { Name := iv.2, TargetTraffic := 0 }))
    (clusterTrafficStatuses, clusterTrafficTargets)
  { TypeMeta := { APIVersion := ShipperAPIVersion, Kind := TrafficTargetKind }
    ObjectMeta :=
      { Name := release.ObjectMeta.Name
        Namespace := ""
        Labels := some [(ReleaseLabel, releaseId)] }
    Status := { Clusters := some loop.1 }
    Spec := { Clusters := some loop.2 } }

/-- Function `NewInstallationTarget`: one status slice is made and filled by the loop;
the spec holds the slice of names it was given. -/
def NewInstallationTarget (release : Release) (releaseId : String)
    (targetClustersNames : Slice String) : InstallationTarget :=
  let targetClustersCount := sliceLen targetClustersNames
  let clusterInstallationStatuses : List ClusterInstallationStatus :=
    List.replicate targetClustersCount { Name := "", Status := "" }
  let loop := (sliceList targetClustersNames).enum.foldl
    (fun st iv => st.set iv.1 { Name := iv.2, Status := "unknown" })
    clusterInstallationStatuses
  { TypeMeta := { APIVersion := ShipperAPIVersion, Kind := InstallationTargetKind }
    ObjectMeta :=
      { Name := release.ObjectMeta.Name
        Namespace := ""
        Labels := some [(ReleaseLabel, releaseId)] }
    Status := { Clusters := some loop }
    Spec := { Clusters := targetClustersNames } }

/-! ## Change filter (source lines 83-89) -/

/-- An `interface{}` value handed to the event handlers: a non-nil
`*v1.Release`, or a value of another dynamic type. -/
inductive Obj where
  | release (r : Release)
  | other (typeName : String)
deriving DecidableEq, Repr

/-- The `FilterFunc` registered in `NewController`.  The type assertion
`obj.(*v1.Release)` panics on any other dynamic type: `none`. -/
def FilterFunc (obj : Obj) : Option Bool :=
  match obj with
  | .other _ => none
  | .release release =>
    match mapGet release.ObjectMeta.Labels PhaseLabel with
    | some val => some (val == WaitingForSchedulingPhase)
    | none => some false

/-! ## Errors and outcomes -/

/-- Modelled from the spec: the reason carried by an API status error
(`metav1.StatusReason`); `Unknown` stands for every other error. -/
inductive StatusReason where
  | NotFound
  | AlreadyExists
  | Conflict
  | Unknown
deriving DecidableEq, Repr

/-- A non-nil Go `error`: its status reason and the text of `Error()`. -/
structure Err where
  reason : StatusReason
  message : String
deriving DecidableEq, Repr

/-- The predicate `errors.IsNotFound` of apimachinery. -/
def IsNotFound (err : Err) : Bool := err.reason == StatusReason.NotFound

/-- The predicate `errors.IsAlreadyExists` of apimachinery (the source file
never calls it). -/
def IsAlreadyExists (err : Err) : Bool := err.reason == StatusReason.AlreadyExists

/-- How a Go call ends: it returns a value, or it panics. -/
inductive Outcome (α : Type) where
  | ret (a : α)
  | panic
deriving DecidableEq, Repr

/-- An `interface{}` item of the work queue: a string key, or a value of
another dynamic type (given by its Go-syntax rendering). -/
inductive QObj where
  | str (key : String)
  | other (goSyntax : String)
deriving DecidableEq, Repr

/-! ## Collaborators: caches, object store, recorder, work queue -/

/-- One call to a collaborator: its arguments and, for the listers and the
clientset, the error it answered (`none`: success). -/
inductive Call where
  | releasesGet (ns name : String) (err : Option Err)
  | clustersList (err : Option Err)
  | installationTargetsCreate (ns : String) (t : InstallationTarget) (err : Option Err)
  | trafficTargetsCreate (ns : String) (t : TrafficTarget) (err : Option Err)
  | capacityTargetsCreate (ns : String) (t : CapacityTarget) (err : Option Err)
  | releasesUpdate (ns : String) (r : Release) (err : Option Err)
  | recorderEvent (r : Release) (eventtype reason message : String)
  | handleError (message : String)
  | workqueueDone (obj : QObj)
  | workqueueForget (obj : QObj)
  | workqueueAddRateLimited (obj : QObj)
deriving DecidableEq, Repr

/-- The error a recorded call answered, if any. -/
def Call.err : Call → Option Err
  | .releasesGet _ _ err => err
  | .clustersList err => err
  | .installationTargetsCreate _ _ err => err
  | .trafficTargetsCreate _ _ err => err
  | .capacityTargetsCreate _ _ err => err
  | .releasesUpdate _ _ err => err
  | _ => none

/-- Calls on the work queue. -/
def Call.isWorkqueue : Call → Bool
  | .workqueueDone _ => true
  | .workqueueForget _ => true
  | .workqueueAddRateLimited _ => true
  | _ => false

/-- Create calls for companion Targets. -/
def Call.isCreate : Call → Bool
  | .installationTargetsCreate _ _ _ => true
  | .trafficTargetsCreate _ _ _ => true
  | .capacityTargetsCreate _ _ _ => true
  | _ => false

/-- Update calls on Releases. -/
def Call.isUpdate : Call → Bool
  | .releasesUpdate _ _ _ => true
  | _ => false

/-- Errors the environment makes a collaborator answer (transient failures,
conflicts); `none` lets the call take its normal course. -/
structure Faults where
  releasesGet : Option Err
  clustersList : Option Err
  installationTargetsCreate : Option Err
  trafficTargetsCreate : Option Err
  capacityTargetsCreate : Option Err
  releasesUpdate : Option Err
deriving DecidableEq, Repr

/-- Modelled from the spec: the controller's surroundings (section 6 of the
spec; the generated listers and clientset are not in the source file).
`heap` holds the Release objects that pointers refer to, `releasesIndexer` is
the informer cache of Releases (index key to pointer), `clustersIndexer` the
cluster inventory in listing order; `installationTargets`, `trafficTargets`,
`capacityTargets` and `releases` are the durable object store; `trace` records
every collaborator call in order. -/
structure World where
  heap : List Release
  releasesIndexer : List (String × Nat)
  clustersIndexer : List Cluster
  installationTargets : List InstallationTarget
  trafficTargets : List TrafficTarget
  capacityTargets : List CapacityTarget
  releases : List Release
  faults : Faults
  trace : List Call
deriving DecidableEq, Repr

/-- The calls made between world `w` and a later world `w'`. -/
def newCalls (w w' : World) : List Call := w'.trace.drop w.trace.length

/-- Lookup of an index key in the informer cache. -/
def indexerGetByKey : List (String × Nat) → String → Option Nat
  | [], _ => none
  | (k, p) :: rest, key => if k = key then some p else indexerGetByKey rest key

/-- Modelled from the spec: the answer of `get(kind, namespace, name)` on the
cached view: the object under `namespace/name`, or NotFound. -/
def releasesGetAnswer (fault : Option Err) (indexer : List (String × Nat))
    (ns name : String) : Except Err Nat :=
  match fault with
  | some err => .error err
  | none =>
    match indexerGetByKey indexer (ns ++ "/" ++ name) with
    | none => .error { reason := .NotFound, message := "release \"" ++ name ++ "\" not found" }
    | some p => .ok p

/-- The error part of an answer. -/
def exceptErr {α : Type} : Except Err α → Option Err
  | .error err => some err
  | .ok _ => none

/-- Modelled from the spec: `releasesLister.Releases(namespace).Get(name)`
(generated lister, not in the source file). -/
def releasesListerGet (w : World) (ns name : String) : Except Err Nat × World :=
  let answer := releasesGetAnswer w.faults.releasesGet w.releasesIndexer ns name
  (answer, { w with trace := w.trace ++ [Call.releasesGet ns name (exceptErr answer)] })

/-- Modelled from the spec: `clustersLister.List(selector)` with the empty
selector (generated lister, not in the source file): `list(kind, selector)`
gives every cached Cluster, in listing order, or an error. -/
def clustersListerList (w : World) : Except Err (List Cluster) × World :=
  match w.faults.clustersList with
  | some err => (.error err, { w with trace := w.trace ++ [Call.clustersList (some err)] })
  | none => (.ok w.clustersIndexer, { w with trace := w.trace ++ [Call.clustersList none] })

/-- Modelled from the spec: the answer of `create(kind, object)`: a fault if
the environment raises one, AlreadyExists when an object of that namespace and
name is stored, success otherwise. -/
def createErr (fault : Option Err) (stored : Bool) (resource name : String) : Option Err :=
  match fault with
  | some err => some err
  | none =>
    if stored then
      some { reason := .AlreadyExists,
             message := resource ++ " \"" ++ name ++ "\" already exists" }
    else none

/-- Whether an InstallationTarget of that namespace and name is stored. -/
def installationTargetStored (l : List InstallationTarget) (ns name : String) : Bool :=
  l.any (fun s => s.ObjectMeta.Namespace == ns && s.ObjectMeta.Name == name)

/-- Whether a TrafficTarget of that namespace and name is stored. -/
def trafficTargetStored (l : List TrafficTarget) (ns name : String) : Bool :=
  l.any (fun s => s.ObjectMeta.Namespace == ns && s.ObjectMeta.Name == name)

/-- Whether a CapacityTarget of that namespace and name is stored. -/
def capacityTargetStored (l : List CapacityTarget) (ns name : String) : Bool :=
  l.any (fun s => s.ObjectMeta.Namespace == ns && s.ObjectMeta.Name == name)

/-- Whether a Release of that namespace and name is stored. -/
def releaseStored (l : List Release) (ns name : String) : Bool :=
  l.any (fun s => s.ObjectMeta.Namespace == ns && s.ObjectMeta.Name == name)

/-- Modelled from the spec: `InstallationTargets(ns).Create(t)` (generated
clientset, not in the source file); on success the object is stored in the
namespace. -/
def installationTargetsCreate (w : World) (ns : String) (t : InstallationTarget) :
    Option Err × World :=
  match createErr w.faults.installationTargetsCreate
      (installationTargetStored w.installationTargets ns t.ObjectMeta.Name)
      "installationtargets" t.ObjectMeta.Name with
  | some err =>
    (some err, { w with trace := w.trace ++ [Call.installationTargetsCreate ns t (some err)] })
  | none =>
    let stored := w.installationTargets ++ [{ t with ObjectMeta := { t.ObjectMeta with Namespace := ns } }]
    let trace := w.trace ++ [Call.installationTargetsCreate ns t none]
    (none, { w with installationTargets := stored, trace := trace })

/-- Modelled from the spec: `TrafficTargets(ns).Create(t)` (generated
clientset, not in the source file). -/
def trafficTargetsCreate (w : World) (ns : String) (t : TrafficTarget) :
    Option Err × World :=
  match createErr w.faults.trafficTargetsCreate
      (trafficTargetStored w.trafficTargets ns t.ObjectMeta.Name)
      "traffictargets" t.ObjectMeta.Name with
  | some err =>
    (some err, { w with trace := w.trace ++ [Call.trafficTargetsCreate ns t (some err)] })
  | none =>
    let stored := w.trafficTargets ++ [{ t with ObjectMeta := { t.ObjectMeta with Namespace := ns } }]
    let trace := w.trace ++ [Call.trafficTargetsCreate ns t none]
    (none, { w with trafficTargets := stored, trace := trace })

/-- Modelled from the spec: `CapacityTargets(ns).Create(t)` (generated
clientset, not in the source file). -/
def capacityTargetsCreate (w : World) (ns : String) (t : CapacityTarget) :
    Option Err × World :=
  match createErr w.faults.capacityTargetsCreate
      (capacityTargetStored w.capacityTargets ns t.ObjectMeta.Name)
      "capacitytargets" t.ObjectMeta.Name with
  | some err =>
    (some err, { w with trace := w.trace ++ [Call.capacityTargetsCreate ns t (some err)] })
  | none =>
    let stored := w.capacityTargets ++ [{ t with ObjectMeta := { t.ObjectMeta with Namespace := ns } }]
    let trace := w.trace ++ [Call.capacityTargetsCreate ns t none]
    (none, { w with capacityTargets := stored, trace := trace })

/-- Modelled from the spec: the answer of `update(kind, object)`: a fault if
the environment raises one (a conflicting concurrent write is such a fault),
NotFound when no Release of that namespace and name is stored, success
otherwise. -/
def updateErr (fault : Option Err) (stored : Bool) (name : String) : Option Err :=
  match fault with
  | some err => some err
  | none =>
    if stored then none
    else some { reason := .NotFound, message := "releases \"" ++ name ++ "\" not found" }

/-- Modelled from the spec: `Releases(ns).Update(r)` (generated clientset, not
in the source file); on success the stored Release of that namespace and name
is replaced by `r`. -/
def releasesUpdate (w : World) (ns : String) (r : Release) : Option Err × World :=
  match updateErr w.faults.releasesUpdate (releaseStored w.releases ns r.ObjectMeta.Name)
      r.ObjectMeta.Name with
  | some err => (some err, { w with trace := w.trace ++ [Call.releasesUpdate ns r (some err)] })
  | none =>
    let stored := w.releases.map
      (fun s => if s.ObjectMeta.Namespace = ns ∧ s.ObjectMeta.Name = r.ObjectMeta.Name
                then r else s)
    let trace := w.trace ++ [Call.releasesUpdate ns r none]
    (none, { w with releases := stored, trace := trace })

/-- The call `recorder.Event(object, eventtype, reason, message)`. -/
def recorderEvent (w : World) (r : Release) (eventtype reason message : String) : World :=
  { w with trace := w.trace ++ [Call.recorderEvent r eventtype reason message] }

/-- The call `runtime.HandleError(err)`, which logs the error. -/
def handleError (w : World) (message : String) : World :=
  { w with trace := w.trace ++ [Call.handleError message] }

/-- The call `workqueue.Done(obj)`. -/
def workqueueDone (w : World) (obj : QObj) : World :=
  { w with trace := w.trace ++ [Call.workqueueDone obj] }

/-- The call `workqueue.Forget(obj)`. -/
def workqueueForget (w : World) (obj : QObj) : World :=
  { w with trace := w.trace ++ [Call.workqueueForget obj] }

/-- The call `workqueue.AddRateLimited(obj)`. -/
def workqueueAddRateLimited (w : World) (obj : QObj) : World :=
  { w with trace := w.trace ++ [Call.workqueueAddRateLimited obj] }

/-- Modelled from the spec: `release.DeepCopy()` (generated deep copy, not in
the source file): a fresh object with the same contents, sharing nothing with
the original.  Returns the new pointer; a dangling pointer faults. -/
def deepCopy (w : World) (p : Nat) : Option (Nat × World) :=
  match w.heap[p]? with
  | none => none
  | some r => some (w.heap.length, { w with heap := w.heap ++ [r] })

/-- Go `strings.Split(s, "/")` on the characters of `s`. -/
def splitSlash : List Char → List (List Char)
  | [] => [[]]
  | c :: cs =>
    if c = '/' then [] :: splitSlash cs
    else
      match splitSlash cs with
      | [] => [[c]]
      | part :: parts => (c :: part) :: parts

/-- The function `cache.SplitMetaNamespaceKey` of client-go: one part is a name
without namespace, two parts are namespace and name, anything else is an
error (`none`). -/
def SplitMetaNamespaceKey (key : String) : Option (String × String) :=
  match splitSlash key.data with
  | [name] => some ("", String.mk name)
  | [ns, name] => some (String.mk ns, String.mk name)
  | _ => none

/-! ## Scheduler and reconciler (source lines 129-230, 325-347) -/

/-- Method `computeTargetClusters`: the pair `([]string, error)` it returns.  The
selectors are not used. -/
def computeTargetClusters (w : World) (_clusterSelectors : Slice ClusterSelector) :
    (Slice String × Option Err) × World :=
  match clustersListerList w with
  | (.error err, w1) => ((none, some err), w1)
  | (.ok targetClusters, w1) =>
    let targetClustersNames : List String :=
      targetClusters.foldl (fun acc v => acc ++ [v.Name]) []
    ((some targetClustersNames, none), w1)

/-- Method `businessLogic` on the Release at pointer `release`. -/
def businessLogic (w : World) (release : Nat) : Outcome (Option Err) × World :=
  match w.heap[release]? with
  | none => (.panic, w)
  | some r =>
    let releaseId := r.ObjectMeta.Namespace ++ "-0"
    match computeTargetClusters w r.Environment.ShipmentOrder.ClusterSelectors with
    | ((_, some err), w1) => (.ret (some err), w1)
    | ((targetClustersNames, none), w1) =>
      let installationTarget := NewInstallationTarget r releaseId targetClustersNames
      match installationTargetsCreate w1 r.ObjectMeta.Namespace installationTarget with
      | (some err, w2) => (.ret (some err), w2)
      | (none, w2) =>
        let trafficTarget := NewTrafficTarget targetClustersNames r releaseId
        match trafficTargetsCreate w2 r.ObjectMeta.Namespace trafficTarget with
        | (some err, w3) => (.ret (some err), w3)
        | (none, w3) =>
          let capacityTarget := NewCapacityTarget targetClustersNames r releaseId
          match capacityTargetsCreate w3 r.ObjectMeta.Namespace capacityTarget with
          | (some err, w4) => (.ret (some err), w4)
          | (none, w4) =>
            let r1 : Release :=
              { r with Environment := { r.Environment with Clusters := targetClustersNames } }
            let w5 := { w4 with heap := w4.heap.set release r1 }
            match mapSet r1.ObjectMeta.Labels PhaseLabel WaitingForStrategy with
            | none => (.panic, w5)
            | some labels =>
              let r2 : Release := { r1 with ObjectMeta := { r1.ObjectMeta with Labels := labels } }
              (.ret none, { w5 with heap := w5.heap.set release r2 })

/-- Method `syncHandler` on a queue key.  A malformed key and a NotFound fetch
are logged and dropped; any other error is returned; the business step runs on
a deep copy, which is then sent to the store. -/
def syncHandler (w : World) (key : String) : Outcome (Option Err) × World :=
  match SplitMetaNamespaceKey key with
  | none => (.ret none, handleError w ("invalid resource key: " ++ key))
  | some (ns, name) =>
    match releasesListerGet w ns name with
    | (.error err, w1) =>
      if IsNotFound err then
        (.ret none, handleError w1 ("release '" ++ key ++ "' in work queue no longer exists"))
      else (.ret (some err), w1)
    | (.ok release, w1) =>
      match deepCopy w1 release with
      | none => (.panic, w1)
      | some (releaseCopy, w2) =>
        match businessLogic w2 releaseCopy with
        | (.panic, w3) => (.panic, w3)
        | (.ret (some err), w3) => (.ret (some err), w3)
        | (.ret none, w3) =>
          match w3.heap[releaseCopy]? with
          | none => (.panic, w3)
          | some rc =>
            match releasesUpdate w3 rc.ObjectMeta.Namespace rc with
            | (some err, w4) => (.ret (some err), w4)
            | (none, w4) =>
              (.ret none, recorderEvent w4 rc EventTypeNormal SuccessSynced MessageResourceSynced)

/-- The anonymous function inside `processNextWorkItem`, without its deferred
`Done`. -/
def processItem (w : World) (obj : QObj) : Outcome (Option Err) × World :=
  match obj with
  | .other goSyntax =>
    let w1 := workqueueForget w obj
    (.ret none, handleError w1 ("expected string in workqueue but got " ++ goSyntax))
  | .str key =>
    match syncHandler w key with
    | (.panic, w1) => (.panic, w1)
    | (.ret (some err), w1) =>
      (.ret (some { reason := .Unknown,
                    message := "error syncing: '" ++ key ++ "': " ++ err.message }), w1)
    | (.ret none, w1) => (.ret none, workqueueForget w1 obj)

/-- Method `processNextWorkItem`, given the pair `(obj, shutdown)` that
`workqueue.Get()` returned.  The deferred `Done` runs when the anonymous
function returns and when it panics. -/
def processNextWorkItem (w : World) (obj : QObj) (shutdown : Bool) : Outcome Bool × World :=
  if shutdown then (.ret false, w)
  else
    match processItem w obj with
    | (.panic, w1) => (.panic, workqueueDone w1 obj)
    | (.ret (some err), w1) => (.ret true, handleError (workqueueDone w1 obj) err.message)
    | (.ret none, w1) => (.ret true, workqueueDone w1 obj)

/-- An `interface{}` value as `cache.MetaNamespaceKeyFunc` sees it: an explicit
key, an API object with its metadata (a Release, a Cluster, any other kind), or
a value that has no object metadata. -/
inductive KeyObj where
  | explicitKey (key : String)
  | object (meta : ObjectMeta)
  | noMeta (typeName : String)
deriving DecidableEq, Repr

/-- The function `cache.MetaNamespaceKeyFunc` of client-go: an explicit key is
returned as it is; a value whose metadata cannot be accessed is an error; an
object gives `namespace/name`, or the bare name when its namespace is empty. -/
def MetaNamespaceKeyFunc (obj : KeyObj) : Except String String :=
  match obj with
  | .explicitKey key => .ok key
  | .noMeta _ => .error "object has no meta: object does not implement the Object interfaces"
  | .object meta =>
    if meta.Namespace.length > 0 then .ok (meta.Namespace ++ "/" ++ meta.Name)
    else .ok meta.Name

/-- Method `enqueueRelease`: the key of the object is added rate-limited; when
the key function fails the error is logged and nothing is enqueued. -/
def enqueueRelease (w : World) (obj : KeyObj) : World :=
  match MetaNamespaceKeyFunc obj with
  | .error message => handleError w message
  | .ok key => workqueueAddRateLimited w (.str key)

/-! ## Concrete worlds -/

/-- No collaborator fails. -/
def noFaults : Faults :=
  { releasesGet := none, clustersList := none, installationTargetsCreate := none,
    trafficTargetsCreate := none, capacityTargetsCreate := none, releasesUpdate := none }

/-- Release `ns/app-1`, awaiting scheduling, with one more label. -/
def app1 : Release :=
  { ObjectMeta :=
      { Name := "app-1", Namespace := "ns",
        Labels := some [("phase", "WaitingForScheduling"), ("team", "x")] }
    Environment := { ShipmentOrder := { ClusterSelectors := none }, Clusters := none } }

/-- The world of end-to-end scenario 1: `ns/app-1` cached and stored, clusters
`cluster-a` and `cluster-b`, no Targets, no faults. -/
def world1 : World :=
  { heap := [app1]
    releasesIndexer := [("ns/app-1", 0)]
    clustersIndexer := [{ Name := "cluster-a" }, { Name := "cluster-b" }]
    installationTargets := []
    trafficTargets := []
    capacityTargets := []
    releases := [app1]
    faults := noFaults
    trace := [] }

/-- A transient error. -/
def transientErr : Err := { reason := .Unknown, message := "connection refused" }

/-- World `world1` in which the TrafficTarget create fails transiently. -/
def worldTrafficFails : World :=
  { world1 with faults := { noFaults with trafficTargetsCreate := some transientErr } }

/-- The world of the retry in end-to-end scenario 3: the state that a first sync
of `ns/app-1` left when its TrafficTarget create failed, with the transient
fault gone and a fresh trace. -/
def worldRetry : World :=
  { (syncHandler worldTrafficFails "ns/app-1").2 with faults := noFaults, trace := [] }

/-- World `world1` with an empty Release cache. -/
def worldDeleted : World := { world1 with releasesIndexer := [] }

/-- World `world1` whose cluster lister fails. -/
def worldListFails : World :=
  { world1 with faults := { noFaults with clustersList := some transientErr } }

/-! ## Lemmas on the embedding -/

theorem foldl_pair_split {α β γ : Type} (g : β → α → β) (h : γ → α → γ) (l : List α)
    (a : β) (b : γ) :
    l.foldl (fun st x => (g st.1 x, h st.2 x)) (a, b) = (l.foldl g a, l.foldl h b) := by
  induction l generalizing a b with
  | nil => rfl
  | cons x xs ih => simp only [List.foldl_cons, ih]

theorem foldl_set_enumFrom {α β : Type} (f : α → β) (z : β) (xs : List α) (pre : List β) :
    (xs.enumFrom pre.length).foldl (fun st iv => st.set iv.1 (f iv.2))
      (pre ++ List.replicate xs.length z) = pre ++ xs.map f := by
  induction xs generalizing pre with
  | nil => simp
  | cons x xs ih =>
    have h := ih (pre ++ [f x])
    simp only [List.length_append, List.length_singleton, List.append_assoc,
      List.singleton_append] at h
    simp only [List.enumFrom_cons, List.foldl_cons, List.length_cons, List.replicate_succ,
      List.map_cons]
    rw [List.set_append_right _ _ (le_refl _)]
    simpa using h

theorem foldl_set_enum {α β : Type} (f : α → β) (z : β) (xs : List α) :
    xs.enum.foldl (fun st iv => st.set iv.1 (f iv.2)) (List.replicate xs.length z)
      = xs.map f := by
  have h := foldl_set_enumFrom f z xs []
  simpa [List.enum] using h

theorem foldl_append_singleton_map {α β : Type} (f : α → β) (xs : List α) (acc : List β) :
    xs.foldl (fun acc v => acc ++ [f v]) acc = acc ++ xs.map f := by
  induction xs generalizing acc with
  | nil => simp
  | cons x xs ih => simp [ih]

theorem NewCapacityTarget_eq (names : Slice String) (r : Release) (id : String) :
    NewCapacityTarget names r id =
      { TypeMeta := { APIVersion := "stable.shipper/v1", Kind := "CapacityTarget" }
        ObjectMeta := { Name := r.ObjectMeta.Name, Namespace := "", Labels := some [("release", id)] }
        Spec := { Clusters := some ((sliceList names).map
                    (fun v => ({ Name := v, Replicas := 0 } : ClusterCapacityTarget))) }
        Status := { Clusters := some ((sliceList names).map
                    (fun v => ({ Name := v, Status := "unknown", AchievedReplicas := 0 } :
                      ClusterCapacityStatus))) } } := by
  unfold NewCapacityTarget sliceLen
  simp only [foldl_pair_split
    (fun (st : List ClusterCapacityStatus) (iv : Nat × String) =>
      st.set iv.1 { Name := iv.2, Status := "unknown", AchievedReplicas := 0 })
    (fun (st : List ClusterCapacityTarget) (iv : Nat × String) =>
      st.set iv.1 { Name := iv.2, Replicas := 0 })]
  rw [foldl_set_enum (fun v => ({ Name := v, Status := "unknown", AchievedReplicas := 0 } :
        ClusterCapacityStatus)),
      foldl_set_enum (fun v => ({ Name := v, Replicas := 0 } : ClusterCapacityTarget))]

theorem NewTrafficTarget_eq (names : Slice String) (r : Release) (id : String) :
    NewTrafficTarget names r id =
      { TypeMeta := { APIVersion := "stable.shipper/v1", Kind := "TrafficTarget" }
        ObjectMeta := { Name := r.ObjectMeta.Name, Namespace := "", Labels := some [("release", id)] }
        Spec := { Clusters := some ((sliceList names).map
                    (fun v => ({ Name := v, TargetTraffic := 0 } : ClusterTrafficTarget))) }
        Status := { Clusters := some ((sliceList names).map
                    (fun v => ({ Name := v, Status := "unknown", AchievedTraffic := 0 } :
                      ClusterTrafficStatus))) } } := by
  unfold NewTrafficTarget sliceLen
  simp only [foldl_pair_split
    (fun (st : List ClusterTrafficStatus) (iv : Nat × String) =>
      st.set iv.1 { Name := iv.2, Status := "unknown", AchievedTraffic := 0 })
    (fun (st : List ClusterTrafficTarget) (iv : Nat × String) =>
      st.set iv.1 { Name := iv.2, TargetTraffic := 0 })]
  rw [foldl_set_enum (fun v => ({ Name := v, Status := "unknown", AchievedTraffic := 0 } :
        ClusterTrafficStatus)),
      foldl_set_enum (fun v => ({ Name := v, TargetTraffic := 0 } : ClusterTrafficTarget))]

theorem NewInstallationTarget_eq (r : Release) (id : String) (names : Slice String) :
    NewInstallationTarget r id names =
      { TypeMeta := { APIVersion := "stable.shipper/v1", Kind := "InstallationTarget" }
        ObjectMeta := { Name := r.ObjectMeta.Name, Namespace := "", Labels := some [("release", id)] }
        Spec := { Clusters := names }
        Status := { Clusters := some ((sliceList names).map
                    (fun v => ({ Name := v, Status := "unknown" } : ClusterInstallationStatus))) } } := by
  unfold NewInstallationTarget sliceLen
  simp only []
  rw [foldl_set_enum (fun v => ({ Name := v, Status := "unknown" } : ClusterInstallationStatus))]

theorem assocGet_assocSet (kvs : List (String × String)) (key val k : String) :
    assocGet (assocSet kvs key val) k = if k = key then some val else assocGet kvs k := by
  induction kvs with
  | nil =>
    by_cases h : k = key
    · simp [assocSet, assocGet, h]
    · have h' : ¬ key = k := fun e => h e.symm
      simp [assocSet, assocGet, h, h']
  | cons kv rest ih =>
    obtain ⟨a, b⟩ := kv
    by_cases hak : a = key
    · by_cases h : k = key
      · simp [assocSet, assocGet, hak, h]
      · have h' : ¬ key = k := fun e => h e.symm
        simp [assocSet, assocGet, hak, h, h']
    · by_cases hk : a = k
      · have h : ¬ k = key := fun e => hak (hk.trans e)
        simp [assocSet, assocGet, hak, hk, h]
      · simp [assocSet, assocGet, hak, hk, ih]

/-! ## The claims -/

/-- C1: on a Release the Change Filter returns (without fault) true exactly
when the label map binds "phase" to "WaitingForScheduling"; on a Release
without labels it returns false. -/
theorem FilterFunc_iff_phase_waiting (r : Release) :
    FilterFunc (Obj.release r) =
        some (decide (mapGet r.ObjectMeta.Labels "phase" = some "WaitingForScheduling")) ∧
      FilterFunc (Obj.release { r with ObjectMeta := { r.ObjectMeta with Labels := none } })
        = some false := by
  refine ⟨?_, rfl⟩
  unfold FilterFunc
  simp only []
  cases h : mapGet r.ObjectMeta.Labels PhaseLabel with
  | none => simp
  | some v => by_cases hv : v = "WaitingForScheduling" <;> simp [hv, WaitingForSchedulingPhase]

/-- C5: the spec and status sequences of the three Targets built from one list
of cluster names all have the length of that list, and their cluster names,
read in order, are the input names in order. -/
theorem targets_positionally_aligned (r : Release) (releaseId : String) (names : Slice String) :
    sliceLen (NewInstallationTarget r releaseId names).Spec.Clusters = sliceLen names ∧
    sliceLen (NewInstallationTarget r releaseId names).Status.Clusters = sliceLen names ∧
    sliceLen (NewTrafficTarget names r releaseId).Spec.Clusters = sliceLen names ∧
    sliceLen (NewTrafficTarget names r releaseId).Status.Clusters = sliceLen names ∧
    sliceLen (NewCapacityTarget names r releaseId).Spec.Clusters = sliceLen names ∧
    sliceLen (NewCapacityTarget names r releaseId).Status.Clusters = sliceLen names ∧
    sliceList (NewInstallationTarget r releaseId names).Spec.Clusters = sliceList names ∧
    (sliceList (NewInstallationTarget r releaseId names).Status.Clusters).map (fun s => s.Name)
      = sliceList names ∧
    (sliceList (NewTrafficTarget names r releaseId).Spec.Clusters).map (fun s => s.Name)
      = sliceList names ∧
    (sliceList (NewTrafficTarget names r releaseId).Status.Clusters).map (fun s => s.Name)
      = sliceList names ∧
    (sliceList (NewCapacityTarget names r releaseId).Spec.Clusters).map (fun s => s.Name)
      = sliceList names ∧
    (sliceList (NewCapacityTarget names r releaseId).Status.Clusters).map (fun s => s.Name)
      = sliceList names := by
  rw [NewInstallationTarget_eq, NewTrafficTarget_eq, NewCapacityTarget_eq]
  simp [sliceLen, sliceList, Function.comp_def]

/-- C6: each built Target is named like the Release, is labelled exactly
"release" = releaseId, has apiVersion "stable.shipper/v1" and its own kind;
every status entry is "unknown" with zero achieved value, every traffic and
capacity spec entry is zero. -/
theorem targets_initial_state (r : Release) (releaseId : String) (names : Slice String) :
    (NewInstallationTarget r releaseId names).ObjectMeta.Name = r.ObjectMeta.Name ∧
    (NewTrafficTarget names r releaseId).ObjectMeta.Name = r.ObjectMeta.Name ∧
    (NewCapacityTarget names r releaseId).ObjectMeta.Name = r.ObjectMeta.Name ∧
    (NewInstallationTarget r releaseId names).ObjectMeta.Labels = some [("release", releaseId)] ∧
    (NewTrafficTarget names r releaseId).ObjectMeta.Labels = some [("release", releaseId)] ∧
    (NewCapacityTarget names r releaseId).ObjectMeta.Labels = some [("release", releaseId)] ∧
    (NewInstallationTarget r releaseId names).TypeMeta
      = { APIVersion := "stable.shipper/v1", Kind := "InstallationTarget" } ∧
    (NewTrafficTarget names r releaseId).TypeMeta
      = { APIVersion := "stable.shipper/v1", Kind := "TrafficTarget" } ∧
    (NewCapacityTarget names r releaseId).TypeMeta
      = { APIVersion := "stable.shipper/v1", Kind := "CapacityTarget" } ∧
    sliceList (NewInstallationTarget r releaseId names).Status.Clusters
      = (sliceList names).map (fun v => { Name := v, Status := "unknown" }) ∧
    sliceList (NewTrafficTarget names r releaseId).Status.Clusters
      = (sliceList names).map (fun v => { Name := v, Status := "unknown", AchievedTraffic := 0 }) ∧
    sliceList (NewCapacityTarget names r releaseId).Status.Clusters
      = (sliceList names).map (fun v => { Name := v, Status := "unknown", AchievedReplicas := 0 }) ∧
    sliceList (NewTrafficTarget names r releaseId).Spec.Clusters
      = (sliceList names).map (fun v => { Name := v, TargetTraffic := 0 }) ∧
    sliceList (NewCapacityTarget names r releaseId).Spec.Clusters
      = (sliceList names).map (fun v => { Name := v, Replicas := 0 }) := by
  rw [NewInstallationTarget_eq, NewTrafficTarget_eq, NewCapacityTarget_eq]
  simp [sliceList]

/-- C7: computeTargetClusters returns, with no error, the names of all listed
clusters in listing order, whatever the selectors; an empty non-nil list for
an empty inventory; and the lister's error with a nil list when the lister
fails. -/
theorem computeTargetClusters_all_names (w : World) (sel sel' : Slice ClusterSelector) :
    (computeTargetClusters w sel).1 =
        (match (clustersListerList w).1 with
          | .ok clusters => (some (clusters.map (fun c => c.Name)), none)
          | .error err => (none, some err)) ∧
      (computeTargetClusters w sel).1 = (computeTargetClusters w sel').1 ∧
      (computeTargetClusters
          { w with clustersIndexer := [], faults := { w.faults with clustersList := none } } sel).1
        = (some [], none) := by
  refine ⟨?_, rfl, rfl⟩
  unfold computeTargetClusters clustersListerList
  cases h : w.faults.clustersList with
  | some e => simp
  | none => simp [foldl_append_singleton_map]

theorem createErr_eq_none_iff (fault : Option Err) (stored : Bool) (resource name : String) :
    createErr fault stored resource name = none ↔ fault = none ∧ stored = false := by
  unfold createErr
  cases fault <;> cases stored <;> simp

theorem updateErr_eq_none_iff (fault : Option Err) (stored : Bool) (name : String) :
    updateErr fault stored name = none ↔ fault = none ∧ stored = true := by
  unfold updateErr
  cases fault <;> cases stored <;> simp

theorem installationTargetsCreate_fst (w : World) (ns : String) (t : InstallationTarget) :
    (installationTargetsCreate w ns t).1 =
      createErr w.faults.installationTargetsCreate
        (installationTargetStored w.installationTargets ns t.ObjectMeta.Name)
        "installationtargets" t.ObjectMeta.Name := by
  unfold installationTargetsCreate
  split <;> simp_all

theorem trafficTargetsCreate_fst (w : World) (ns : String) (t : TrafficTarget) :
    (trafficTargetsCreate w ns t).1 =
      createErr w.faults.trafficTargetsCreate
        (trafficTargetStored w.trafficTargets ns t.ObjectMeta.Name)
        "traffictargets" t.ObjectMeta.Name := by
  unfold trafficTargetsCreate
  split <;> simp_all

theorem capacityTargetsCreate_fst (w : World) (ns : String) (t : CapacityTarget) :
    (capacityTargetsCreate w ns t).1 =
      createErr w.faults.capacityTargetsCreate
        (capacityTargetStored w.capacityTargets ns t.ObjectMeta.Name)
        "capacitytargets" t.ObjectMeta.Name := by
  unfold capacityTargetsCreate
  split <;> simp_all

theorem releasesUpdate_fst (w : World) (ns : String) (r : Release) :
    (releasesUpdate w ns r).1 =
      updateErr w.faults.releasesUpdate (releaseStored w.releases ns r.ObjectMeta.Name)
        r.ObjectMeta.Name := by
  unfold releasesUpdate
  split <;> simp_all

theorem clustersListerList_fst (w : World) :
    (clustersListerList w).1 =
      (match w.faults.clustersList with
        | some err => .error err
        | none => .ok w.clustersIndexer) := by
  unfold clustersListerList
  split <;> rfl

theorem NewInstallationTarget_name (r : Release) (id : String) (names : Slice String) :
    (NewInstallationTarget r id names).ObjectMeta.Name = r.ObjectMeta.Name := by
  rw [NewInstallationTarget_eq]

theorem NewTrafficTarget_name (names : Slice String) (r : Release) (id : String) :
    (NewTrafficTarget names r id).ObjectMeta.Name = r.ObjectMeta.Name := by
  rw [NewTrafficTarget_eq]

theorem NewCapacityTarget_name (names : Slice String) (r : Release) (id : String) :
    (NewCapacityTarget names r id).ObjectMeta.Name = r.ObjectMeta.Name := by
  rw [NewCapacityTarget_eq]

theorem businessLogic_success (w : World) (p : Nat) (r : Release) (kvs : List (String × String))
    (hheap : w.heap[p]? = some r)
    (hlab : r.ObjectMeta.Labels = some kvs)
    (hl : w.faults.clustersList = none)
    (hi : createErr w.faults.installationTargetsCreate
        (installationTargetStored w.installationTargets r.ObjectMeta.Namespace r.ObjectMeta.Name)
        "installationtargets" r.ObjectMeta.Name = none)
    (ht : createErr w.faults.trafficTargetsCreate
        (trafficTargetStored w.trafficTargets r.ObjectMeta.Namespace r.ObjectMeta.Name)
        "traffictargets" r.ObjectMeta.Name = none)
    (hc : createErr w.faults.capacityTargetsCreate
        (capacityTargetStored w.capacityTargets r.ObjectMeta.Namespace r.ObjectMeta.Name)
        "capacitytargets" r.ObjectMeta.Name = none) :
    businessLogic w p =
      (.ret none,
        { w with
          heap := w.heap.set p
            { ObjectMeta := { r.ObjectMeta with Labels := some (assocSet kvs "phase" "WaitingForStrategy") }
              Environment := { r.Environment with
                Clusters := some (w.clustersIndexer.map (fun c => c.Name)) } }
          installationTargets := w.installationTargets ++
            [{ NewInstallationTarget r (r.ObjectMeta.Namespace ++ "-0")
                  (some (w.clustersIndexer.map (fun c => c.Name))) with
               ObjectMeta := { Name := r.ObjectMeta.Name, Namespace := r.ObjectMeta.Namespace,
                               Labels := some [("release", r.ObjectMeta.Namespace ++ "-0")] } }]
          trafficTargets := w.trafficTargets ++
            [{ NewTrafficTarget (some (w.clustersIndexer.map (fun c => c.Name))) r
                  (r.ObjectMeta.Namespace ++ "-0") with
               ObjectMeta := { Name := r.ObjectMeta.Name, Namespace := r.ObjectMeta.Namespace,
                               Labels := some [("release", r.ObjectMeta.Namespace ++ "-0")] } }]
          capacityTargets := w.capacityTargets ++
            [{ NewCapacityTarget (some (w.clustersIndexer.map (fun c => c.Name))) r
                  (r.ObjectMeta.Namespace ++ "-0") with
               ObjectMeta := { Name := r.ObjectMeta.Name, Namespace := r.ObjectMeta.Namespace,
                               Labels := some [("release", r.ObjectMeta.Namespace ++ "-0")] } }]
          trace := w.trace ++
            [Call.clustersList none,
             Call.installationTargetsCreate r.ObjectMeta.Namespace
               (NewInstallationTarget r (r.ObjectMeta.Namespace ++ "-0")
                  (some (w.clustersIndexer.map (fun c => c.Name)))) none,
             Call.trafficTargetsCreate r.ObjectMeta.Namespace
               (NewTrafficTarget (some (w.clustersIndexer.map (fun c => c.Name))) r
                  (r.ObjectMeta.Namespace ++ "-0")) none,
             Call.capacityTargetsCreate r.ObjectMeta.Namespace
               (NewCapacityTarget (some (w.clustersIndexer.map (fun c => c.Name))) r
                  (r.ObjectMeta.Namespace ++ "-0")) none] }) := by
  unfold businessLogic
  simp only [hheap, computeTargetClusters, clustersListerList, hl, foldl_append_singleton_map,
    List.nil_append, installationTargetsCreate, NewInstallationTarget_name, hi, trafficTargetsCreate,
    NewTrafficTarget_name, ht, capacityTargetsCreate, NewCapacityTarget_name, hc, mapSet, hlab]
  simp [NewInstallationTarget_eq, NewTrafficTarget_eq, NewCapacityTarget_eq]

theorem FilterFunc_true_labels (r : Release) (h : FilterFunc (Obj.release r) = some true) :
    ∃ kvs, r.ObjectMeta.Labels = some kvs := by
  unfold FilterFunc at h
  cases hl : r.ObjectMeta.Labels with
  | none => simp [hl, mapGet] at h
  | some kvs => exact ⟨kvs, rfl⟩

theorem clustersListerList_ok (w : World) (clusters : List Cluster)
    (h : (clustersListerList w).1 = .ok clusters) :
    w.faults.clustersList = none ∧ w.clustersIndexer = clusters := by
  rw [clustersListerList_fst] at h
  cases hf : w.faults.clustersList with
  | some e => simp [hf] at h
  | none => simpa [hf] using h

/-- C10: for a Release the Change Filter admits, when the cluster list and the
three creates succeed, businessLogic returns nil (the phase-label write does
not fault) and the label map afterwards is the old map with "phase" set to
"WaitingForStrategy" and every other label as before. -/
theorem businessLogic_phase_write_safe (w : World) (p : Nat) (r : Release)
    (clusters : List Cluster)
    (hheap : w.heap[p]? = some r)
    (hfilter : FilterFunc (Obj.release r) = some true)
    (hlist : (clustersListerList w).1 = .ok clusters)
    (hIT : (installationTargetsCreate w r.ObjectMeta.Namespace
        (NewInstallationTarget r (r.ObjectMeta.Namespace ++ "-0")
          (some (clusters.map (fun c => c.Name))))).1 = none)
    (hTT : (trafficTargetsCreate w r.ObjectMeta.Namespace
        (NewTrafficTarget (some (clusters.map (fun c => c.Name))) r
          (r.ObjectMeta.Namespace ++ "-0"))).1 = none)
    (hCT : (capacityTargetsCreate w r.ObjectMeta.Namespace
        (NewCapacityTarget (some (clusters.map (fun c => c.Name))) r
          (r.ObjectMeta.Namespace ++ "-0"))).1 = none) :
    (businessLogic w p).1 = .ret none ∧
    ∃ r', (businessLogic w p).2.heap[p]? = some r' ∧
      some r'.ObjectMeta.Labels = mapSet r.ObjectMeta.Labels "phase" "WaitingForStrategy" ∧
      ∀ k, mapGet r'.ObjectMeta.Labels k =
        if k = "phase" then some "WaitingForStrategy" else mapGet r.ObjectMeta.Labels k := by
  obtain ⟨kvs, hlab⟩ := FilterFunc_true_labels r hfilter
  obtain ⟨hl, hcl⟩ := clustersListerList_ok w clusters hlist
  subst hcl
  rw [installationTargetsCreate_fst, NewInstallationTarget_name] at hIT
  rw [trafficTargetsCreate_fst, NewTrafficTarget_name] at hTT
  rw [capacityTargetsCreate_fst, NewCapacityTarget_name] at hCT
  have hlt : p < w.heap.length := by
    rcases Nat.lt_or_ge p w.heap.length with h | h
    · exact h
    · rw [List.getElem?_eq_none h] at hheap
      cases hheap
  rw [businessLogic_success w p r kvs hheap hlab hl hIT hTT hCT]
  refine ⟨rfl,
    { ObjectMeta := { r.ObjectMeta with Labels := some (assocSet kvs "phase" "WaitingForStrategy") }
      Environment := { r.Environment with
        Clusters := some (w.clustersIndexer.map (fun c => c.Name)) } }, ?_, ?_, ?_⟩
  · exact List.getElem?_set_self hlt
  · simp [mapSet, hlab]
  · intro k
    simp [mapGet, hlab, assocGet_assocSet]

theorem releasesListerGet_fst (w : World) (ns name : String) :
    (releasesListerGet w ns name).1 =
      releasesGetAnswer w.faults.releasesGet w.releasesIndexer ns name := rfl

theorem getElem?_lt_length {α : Type} (l : List α) (p : Nat) (a : α) (h : l[p]? = some a) :
    p < l.length := by
  rcases Nat.lt_or_ge p l.length with h' | h'
  · exact h'
  · rw [List.getElem?_eq_none h'] at h
    cases h

/-- C2: for a well-formed key ns/name whose cached Release has a non-nil label
map, when the cluster list, the three creates and the update succeed,
syncHandler returns nil; the updated Release has phase "WaitingForStrategy"
and the listed cluster names in order; exactly one InstallationTarget, one
TrafficTarget and one CapacityTarget are created in ns, named like the
Release, with one "unknown"/zero entry per cluster. -/
theorem syncHandler_schedules (w : World) (key ns name : String) (p : Nat) (r : Release)
    (kvs : List (String × String)) (clusters : List Cluster)
    (hkey : SplitMetaNamespaceKey key = some (ns, name))
    (hget : (releasesListerGet w ns name).1 = .ok p)
    (hheap : w.heap[p]? = some r)
    (hns : r.ObjectMeta.Namespace = ns)
    (hname : r.ObjectMeta.Name = name)
    (hlab : r.ObjectMeta.Labels = some kvs)
    (hlist : (clustersListerList w).1 = .ok clusters)
    (hIT : (installationTargetsCreate w ns
        (NewInstallationTarget r (ns ++ "-0") (some (clusters.map (fun c => c.Name))))).1 = none)
    (hTT : (trafficTargetsCreate w ns
        (NewTrafficTarget (some (clusters.map (fun c => c.Name))) r (ns ++ "-0"))).1 = none)
    (hCT : (capacityTargetsCreate w ns
        (NewCapacityTarget (some (clusters.map (fun c => c.Name))) r (ns ++ "-0"))).1 = none)
    (hupd : (releasesUpdate w ns
        { ObjectMeta := { Name := name, Namespace := ns,
                          Labels := some (assocSet kvs "phase" "WaitingForStrategy") }
          Environment := { ShipmentOrder := r.Environment.ShipmentOrder,
                           Clusters := some (clusters.map (fun c => c.Name)) } }).1 = none) :
    (syncHandler w key).1 = .ret none ∧
    mapGet (some (assocSet kvs "phase" "WaitingForStrategy")) "phase" = some "WaitingForStrategy" ∧
    (syncHandler w key).2.releases = w.releases.map
      (fun s => if s.ObjectMeta.Namespace = ns ∧ s.ObjectMeta.Name = name then
        { ObjectMeta := { Name := name, Namespace := ns,
                          Labels := some (assocSet kvs "phase" "WaitingForStrategy") }
          Environment := { ShipmentOrder := r.Environment.ShipmentOrder,
                           Clusters := some (clusters.map (fun c => c.Name)) } }
        else s) ∧
    (syncHandler w key).2.installationTargets = w.installationTargets ++
      [{ TypeMeta := { APIVersion := "stable.shipper/v1", Kind := "InstallationTarget" }
         ObjectMeta := { Name := name, Namespace := ns, Labels := some [("release", ns ++ "-0")] }
         Spec := { Clusters := some (clusters.map (fun c => c.Name)) }
         Status := { Clusters := some (clusters.map
                       (fun c => { Name := c.Name, Status := "unknown" })) } }] ∧
    (syncHandler w key).2.trafficTargets = w.trafficTargets ++
      [{ TypeMeta := { APIVersion := "stable.shipper/v1", Kind := "TrafficTarget" }
         ObjectMeta := { Name := name, Namespace := ns, Labels := some [("release", ns ++ "-0")] }
         Spec := { Clusters := some (clusters.map
                     (fun c => { Name := c.Name, TargetTraffic := 0 })) }
         Status := { Clusters := some (clusters.map
                       (fun c => { Name := c.Name, Status := "unknown", AchievedTraffic := 0 })) } }] ∧
    (syncHandler w key).2.capacityTargets = w.capacityTargets ++
      [{ TypeMeta := { APIVersion := "stable.shipper/v1", Kind := "CapacityTarget" }
         ObjectMeta := { Name := name, Namespace := ns, Labels := some [("release", ns ++ "-0")] }
         Spec := { Clusters := some (clusters.map
                     (fun c => { Name := c.Name, Replicas := 0 })) }
         Status := { Clusters := some (clusters.map
                       (fun c => { Name := c.Name, Status := "unknown", AchievedReplicas := 0 })) } }] ∧
    newCalls w (syncHandler w key).2 =
      [Call.releasesGet ns name none,
       Call.clustersList none,
       Call.installationTargetsCreate ns
         (NewInstallationTarget r (ns ++ "-0") (some (clusters.map (fun c => c.Name)))) none,
       Call.trafficTargetsCreate ns
         (NewTrafficTarget (some (clusters.map (fun c => c.Name))) r (ns ++ "-0")) none,
       Call.capacityTargetsCreate ns
         (NewCapacityTarget (some (clusters.map (fun c => c.Name))) r (ns ++ "-0")) none,
       Call.releasesUpdate ns
         { ObjectMeta := { Name := name, Namespace := ns,
                           Labels := some (assocSet kvs "phase" "WaitingForStrategy") }
           Environment := { ShipmentOrder := r.Environment.ShipmentOrder,
                            Clusters := some (clusters.map (fun c => c.Name)) } } none,
       Call.recorderEvent
         { ObjectMeta := { Name := name, Namespace := ns,
                           Labels := some (assocSet kvs "phase" "WaitingForStrategy") }
           Environment := { ShipmentOrder := r.Environment.ShipmentOrder,
                            Clusters := some (clusters.map (fun c => c.Name)) } }
         "Normal" "Synced" "Release synced successfully"] := by
  obtain ⟨hl, hcl⟩ := clustersListerList_ok w clusters hlist
  subst hcl
  subst hns
  subst hname
  rw [installationTargetsCreate_fst, NewInstallationTarget_name] at hIT
  rw [trafficTargetsCreate_fst, NewTrafficTarget_name] at hTT
  rw [capacityTargetsCreate_fst, NewCapacityTarget_name] at hCT
  rw [releasesUpdate_fst] at hupd
  rw [releasesListerGet_fst] at hget
  have hlt : p < w.heap.length := getElem?_lt_length _ _ _ hheap
  have hb := businessLogic_success
    { w with heap := w.heap ++ [r], trace := w.trace ++ [Call.releasesGet r.ObjectMeta.Namespace r.ObjectMeta.Name none] }
    w.heap.length r kvs (by simp) hlab hl hIT hTT hCT
  simp only [] at hb hupd
  have hlen : (w.heap ++ [r]).length = w.heap.length + 1 := by simp
  unfold syncHandler
  simp only [hkey, releasesListerGet, hget, deepCopy, hheap, exceptErr, hb]
  simp [releasesUpdate, hupd, recorderEvent, newCalls, mapGet, assocGet_assocSet,
    NewInstallationTarget_eq, NewTrafficTarget_eq, NewCapacityTarget_eq, sliceList]

theorem set_length_append_singleton {α : Type} (l : List α) (a b : α) :
    (l ++ [a]).set l.length b = l ++ [b] := by
  rw [List.set_append_right _ _ (le_refl _)]
  simp

theorem getElem?_length_append_singleton {α : Type} (l : List α) (a : α) :
    (l ++ [a])[l.length]? = some a := by
  simp

theorem getElem?_append_singleton_of_some {α : Type} (l : List α) (a b : α) (p : Nat)
    (h : l[p]? = some b) : (l ++ [a])[p]? = some b := by
  rw [List.getElem?_append_left (getElem?_lt_length l p b h)]
  exact h

/-- C8: when the Release fetch answers NotFound, syncHandler returns nil and
makes no other call than logging the error (no cluster list, no create, no
update, no event); on any other fetch error it returns that error and makes no
further call at all. -/
theorem syncHandler_fetch_error (w : World) (key ns name : String) (e : Err)
    (hkey : SplitMetaNamespaceKey key = some (ns, name))
    (hget : (releasesListerGet w ns name).1 = .error e) :
    syncHandler w key =
      if IsNotFound e then
        (.ret none,
          { w with trace := w.trace ++
              [Call.releasesGet ns name (some e),
               Call.handleError ("release '" ++ key ++ "' in work queue no longer exists")] })
      else
        (.ret (some e), { w with trace := w.trace ++ [Call.releasesGet ns name (some e)] }) := by
  rw [releasesListerGet_fst] at hget
  unfold syncHandler
  simp only [hkey, releasesListerGet, hget, exceptErr, handleError]
  split <;> simp

theorem syncHandler_invariants (w : World) (key : String) :
    (syncHandler w key).2.releasesIndexer = w.releasesIndexer ∧
    (syncHandler w key).2.clustersIndexer = w.clustersIndexer ∧
    (syncHandler w key).2.faults = w.faults ∧
    (syncHandler w key).2.heap.take w.heap.length = w.heap ∧
    (syncHandler w key).2.trace = w.trace ++ newCalls w (syncHandler w key).2 ∧
    (∀ c ∈ newCalls w (syncHandler w key).2, c.isWorkqueue = false) ∧
    ((syncHandler w key).1 = .ret none ∨ (syncHandler w key).2.releases = w.releases) ∧
    (∀ c ∈ newCalls w (syncHandler w key).2, c.isCreate = true → ∀ e, c.err = some e →
      (syncHandler w key).1 = .ret (some e) ∧
      (newCalls w (syncHandler w key).2).getLast? = some c ∧
      (syncHandler w key).2.releases = w.releases ∧
      ∀ c' ∈ newCalls w (syncHandler w key).2, c'.isUpdate = false) ∧
    ((∀ c ∈ newCalls w (syncHandler w key).2, c.isUpdate = false) ∨
      ∃ ns name rns it tt ct r' e rest,
        newCalls w (syncHandler w key).2 =
          [Call.releasesGet ns name none, Call.clustersList none,
           Call.installationTargetsCreate rns it none, Call.trafficTargetsCreate rns tt none,
           Call.capacityTargetsCreate rns ct none, Call.releasesUpdate rns r' e] ++ rest ∧
        (syncHandler w key).2.installationTargets = w.installationTargets ++
          [{ it with ObjectMeta := { it.ObjectMeta with Namespace := rns } }] ∧
        (syncHandler w key).2.trafficTargets = w.trafficTargets ++
          [{ tt with ObjectMeta := { tt.ObjectMeta with Namespace := rns } }] ∧
        (syncHandler w key).2.capacityTargets = w.capacityTargets ++
          [{ ct with ObjectMeta := { ct.ObjectMeta with Namespace := rns } }]) := by
  unfold syncHandler
  cases hkey : SplitMetaNamespaceKey key with
  | none => simp [handleError, newCalls, Call.isWorkqueue, Call.isCreate, Call.isUpdate, Call.err]
  | some nsname =>
    obtain ⟨ns, name⟩ := nsname
    cases hget : releasesGetAnswer w.faults.releasesGet w.releasesIndexer ns name with
    | error e =>
      simp only [releasesListerGet, hget, exceptErr, handleError]
      split <;> simp [newCalls, Call.isWorkqueue, Call.isCreate, Call.isUpdate, Call.err]
    | ok p =>
      cases hheap : w.heap[p]? with
      | none => simp [releasesListerGet, hget, exceptErr, deepCopy, hheap, newCalls, Call.isWorkqueue, Call.isCreate, Call.isUpdate, Call.err]
      | some r =>
        simp only [releasesListerGet, hget, exceptErr, deepCopy, hheap, businessLogic,
          getElem?_length_append_singleton, computeTargetClusters, clustersListerList]
        cases hl : w.faults.clustersList with
        | some e => simp [newCalls, Call.isWorkqueue, Call.isCreate, Call.isUpdate, Call.err]
        | none =>
          simp only [foldl_append_singleton_map, List.nil_append, installationTargetsCreate,
            NewInstallationTarget_name]
          cases hi : createErr w.faults.installationTargetsCreate
              (installationTargetStored w.installationTargets r.ObjectMeta.Namespace
                r.ObjectMeta.Name) "installationtargets" r.ObjectMeta.Name with
          | some e => simp [newCalls, Call.isWorkqueue, Call.isCreate, Call.isUpdate, Call.err]
          | none =>
            simp only [trafficTargetsCreate, NewTrafficTarget_name]
            cases ht : createErr w.faults.trafficTargetsCreate
                (trafficTargetStored w.trafficTargets r.ObjectMeta.Namespace
                  r.ObjectMeta.Name) "traffictargets" r.ObjectMeta.Name with
            | some e => simp [newCalls, Call.isWorkqueue, Call.isCreate, Call.isUpdate, Call.err]
            | none =>
              simp only [capacityTargetsCreate, NewCapacityTarget_name]
              cases hc : createErr w.faults.capacityTargetsCreate
                  (capacityTargetStored w.capacityTargets r.ObjectMeta.Namespace
                    r.ObjectMeta.Name) "capacitytargets" r.ObjectMeta.Name with
              | some e => simp [newCalls, Call.isWorkqueue, Call.isCreate, Call.isUpdate, Call.err]
              | none =>
                cases hlab : r.ObjectMeta.Labels with
                | none =>
                  simp [mapSet, hlab, newCalls, Call.isWorkqueue, Call.isCreate, Call.isUpdate, Call.err, set_length_append_singleton]
                | some kvs =>
                  simp only [mapSet, hlab, set_length_append_singleton,
                    getElem?_length_append_singleton, releasesUpdate]
                  cases hu : updateErr w.faults.releasesUpdate
                      (releaseStored w.releases r.ObjectMeta.Namespace r.ObjectMeta.Name)
                      r.ObjectMeta.Name with
                  | some e =>
                    refine ⟨?_, ?_, ?_, ?_, ?_, ?_, ?_, ?_, Or.inr ⟨ns, name, r.ObjectMeta.Namespace,
                      NewInstallationTarget r (r.ObjectMeta.Namespace ++ "-0")
                        (some (w.clustersIndexer.map (fun c => c.Name))),
                      NewTrafficTarget (some (w.clustersIndexer.map (fun c => c.Name))) r
                        (r.ObjectMeta.Namespace ++ "-0"),
                      NewCapacityTarget (some (w.clustersIndexer.map (fun c => c.Name))) r
                        (r.ObjectMeta.Namespace ++ "-0"),
                      { ObjectMeta := { r.ObjectMeta with
                          Labels := some (assocSet kvs "phase" "WaitingForStrategy") }
                        Environment := { r.Environment with
                          Clusters := some (w.clustersIndexer.map (fun c => c.Name)) } },
                      some e, [], ?_, ?_, ?_, ?_⟩⟩ <;>
                    simp [newCalls, Call.isWorkqueue, Call.isCreate, Call.isUpdate, Call.err,
                      NewInstallationTarget_name, NewTrafficTarget_name, NewCapacityTarget_name]
                  | none =>
                    refine ⟨?_, ?_, ?_, ?_, ?_, ?_, ?_, ?_, Or.inr ⟨ns, name, r.ObjectMeta.Namespace,
                      NewInstallationTarget r (r.ObjectMeta.Namespace ++ "-0")
                        (some (w.clustersIndexer.map (fun c => c.Name))),
                      NewTrafficTarget (some (w.clustersIndexer.map (fun c => c.Name))) r
                        (r.ObjectMeta.Namespace ++ "-0"),
                      NewCapacityTarget (some (w.clustersIndexer.map (fun c => c.Name))) r
                        (r.ObjectMeta.Namespace ++ "-0"),
                      { ObjectMeta := { r.ObjectMeta with
                          Labels := some (assocSet kvs "phase" "WaitingForStrategy") }
                        Environment := { r.Environment with
                          Clusters := some (w.clustersIndexer.map (fun c => c.Name)) } },
                      none,
                      [Call.recorderEvent
                        { ObjectMeta := { r.ObjectMeta with
                            Labels := some (assocSet kvs "phase" "WaitingForStrategy") }
                          Environment := { r.Environment with
                            Clusters := some (w.clustersIndexer.map (fun c => c.Name)) } }
                        "Normal" "Synced" "Release synced successfully"], ?_, ?_, ?_, ?_⟩⟩ <;>
                    simp [recorderEvent, newCalls, Call.isWorkqueue, Call.isCreate, Call.isUpdate,
                      Call.err, NewInstallationTarget_name, NewTrafficTarget_name,
                      NewCapacityTarget_name]



theorem newCalls_append (w w1 : World) (extra : List Call) (t : List Call)
    (h1 : w1.trace = w.trace ++ newCalls w w1) (ht : t = w1.trace ++ extra) :
    t.drop w.trace.length = newCalls w w1 ++ extra := by
  rw [ht, h1]
  simp [newCalls]

/-- C9: syncHandler never changes the cached view: the Release index is as
before and every Release object that existed before the call is unchanged (all
writes go to the fresh deep copy); unless it returns nil the durable Releases
are unchanged; and an update call is issued only after the fetch, the cluster
list and all three Target creates succeeded. -/
theorem syncHandler_mutates_only_copy (w : World) (key : String) :
    (syncHandler w key).2.releasesIndexer = w.releasesIndexer ∧
    (syncHandler w key).2.heap.take w.heap.length = w.heap ∧
    ((syncHandler w key).1 = .ret none ∨ (syncHandler w key).2.releases = w.releases) ∧
    ((∀ c ∈ newCalls w (syncHandler w key).2, c.isUpdate = false) ∨
      ∃ ns name rns it tt ct r' e rest,
        newCalls w (syncHandler w key).2 =
          [Call.releasesGet ns name none, Call.clustersList none,
           Call.installationTargetsCreate rns it none, Call.trafficTargetsCreate rns tt none,
           Call.capacityTargetsCreate rns ct none, Call.releasesUpdate rns r' e] ++ rest ∧
        (syncHandler w key).2.installationTargets = w.installationTargets ++
          [{ it with ObjectMeta := { it.ObjectMeta with Namespace := rns } }] ∧
        (syncHandler w key).2.trafficTargets = w.trafficTargets ++
          [{ tt with ObjectMeta := { tt.ObjectMeta with Namespace := rns } }] ∧
        (syncHandler w key).2.capacityTargets = w.capacityTargets ++
          [{ ct with ObjectMeta := { ct.ObjectMeta with Namespace := rns } }]) := by
  obtain ⟨h1, _, _, h4, _, _, h7, _, h9⟩ := syncHandler_invariants w key
  exact ⟨h1, h4, h7, h9⟩

theorem processNextWorkItem_of_sync_err (w : World) (key : String) (e : Err) (w1 : World)
    (hs : syncHandler w key = (.ret (some e), w1)) :
    processNextWorkItem w (.str key) false =
      (.ret true, handleError (workqueueDone w1 (.str key))
        ("error syncing: '" ++ key ++ "': " ++ e.message)) := by
  unfold processNextWorkItem processItem
  simp only [Bool.false_eq_true, if_false, hs]

theorem processNextWorkItem_of_sync_nil (w : World) (key : String) (w1 : World)
    (hs : syncHandler w key = (.ret none, w1)) :
    processNextWorkItem w (.str key) false =
      (.ret true, workqueueDone (workqueueForget w1 (.str key)) (.str key)) := by
  unfold processNextWorkItem processItem
  simp only [Bool.false_eq_true, if_false, hs]

theorem processNextWorkItem_of_sync_panic (w : World) (key : String) (w1 : World)
    (hs : syncHandler w key = (.panic, w1)) :
    processNextWorkItem w (.str key) false = (.panic, workqueueDone w1 (.str key)) := by
  unfold processNextWorkItem processItem
  simp only [Bool.false_eq_true, if_false, hs]

/-- C4 (amended): for a dequeued string key, when syncHandler returns an error
processNextWorkItem calls Done, then logs the wrapped error with HandleError,
and returns true: its only work-queue call is that one Done (no Forget, no
AddRateLimited: the key is not re-enqueued).  When syncHandler returns nil it
calls Forget, then Done, once each, logs no error and returns true.  When
syncHandler panics the deferred Done still runs once.  In each case these are
the only calls it adds to those of syncHandler. -/
theorem processNextWorkItem_queue_calls (w : World) (key : String) :
    match (syncHandler w key).1 with
    | .ret (some e) =>
      processNextWorkItem w (.str key) false =
        (.ret true, handleError (workqueueDone (syncHandler w key).2 (.str key))
          ("error syncing: '" ++ key ++ "': " ++ e.message)) ∧
      (processNextWorkItem w (.str key) false).1 = .ret true ∧
      newCalls w (processNextWorkItem w (.str key) false).2 =
        newCalls w (syncHandler w key).2 ++
          [Call.workqueueDone (.str key),
           Call.handleError ("error syncing: '" ++ key ++ "': " ++ e.message)] ∧
      (newCalls w (processNextWorkItem w (.str key) false).2).filter Call.isWorkqueue
        = [Call.workqueueDone (.str key)]
    | .ret none =>
      processNextWorkItem w (.str key) false =
        (.ret true, workqueueDone (workqueueForget (syncHandler w key).2 (.str key)) (.str key)) ∧
      (processNextWorkItem w (.str key) false).1 = .ret true ∧
      newCalls w (processNextWorkItem w (.str key) false).2 =
        newCalls w (syncHandler w key).2 ++
          [Call.workqueueForget (.str key), Call.workqueueDone (.str key)] ∧
      (newCalls w (processNextWorkItem w (.str key) false).2).filter Call.isWorkqueue
        = [Call.workqueueForget (.str key), Call.workqueueDone (.str key)]
    | .panic =>
      processNextWorkItem w (.str key) false =
        (.panic, workqueueDone (syncHandler w key).2 (.str key)) ∧
      (processNextWorkItem w (.str key) false).1 = .panic ∧
      newCalls w (processNextWorkItem w (.str key) false).2 =
        newCalls w (syncHandler w key).2 ++ [Call.workqueueDone (.str key)] ∧
      (newCalls w (processNextWorkItem w (.str key) false).2).filter Call.isWorkqueue
        = [Call.workqueueDone (.str key)] := by
  obtain ⟨_, _, _, _, h5, h6, _⟩ := syncHandler_invariants w key
  have hnil : (newCalls w (syncHandler w key).2).filter Call.isWorkqueue = [] := by
    rw [List.filter_eq_nil_iff]
    intro c hc
    simp [h6 c hc]
  rcases ho : (syncHandler w key).1 with (_ | e) | _
  · have hs : syncHandler w key = (.ret none, (syncHandler w key).2) := Prod.ext ho rfl
    have hcalls : newCalls w (workqueueDone (workqueueForget (syncHandler w key).2 (.str key))
        (.str key)) = newCalls w (syncHandler w key).2 ++
          [Call.workqueueForget (.str key), Call.workqueueDone (.str key)] :=
      newCalls_append w (syncHandler w key).2 _ _ h5 (by simp [workqueueDone, workqueueForget])
    rw [processNextWorkItem_of_sync_nil w key _ hs]
    refine ⟨rfl, rfl, hcalls, ?_⟩
    show (newCalls w _).filter _ = _
    rw [hcalls]
    simp [hnil, Call.isWorkqueue]
  · have hs : syncHandler w key = (.ret (some e), (syncHandler w key).2) := Prod.ext ho rfl
    have hcalls : newCalls w (handleError (workqueueDone (syncHandler w key).2 (.str key))
        ("error syncing: '" ++ key ++ "': " ++ e.message)) =
          newCalls w (syncHandler w key).2 ++
            [Call.workqueueDone (.str key),
             Call.handleError ("error syncing: '" ++ key ++ "': " ++ e.message)] :=
      newCalls_append w (syncHandler w key).2 _ _ h5 (by simp [workqueueDone, handleError])
    rw [processNextWorkItem_of_sync_err w key e _ hs]
    refine ⟨rfl, rfl, hcalls, ?_⟩
    show (newCalls w _).filter _ = _
    rw [hcalls]
    simp [hnil, Call.isWorkqueue]
  · have hs : syncHandler w key = (.panic, (syncHandler w key).2) := Prod.ext ho rfl
    have hcalls : newCalls w (workqueueDone (syncHandler w key).2 (.str key)) =
        newCalls w (syncHandler w key).2 ++ [Call.workqueueDone (.str key)] :=
      newCalls_append w (syncHandler w key).2 _ _ h5 (by simp [workqueueDone])
    rw [processNextWorkItem_of_sync_panic w key _ hs]
    refine ⟨rfl, rfl, hcalls, ?_⟩
    show (newCalls w _).filter _ = _
    rw [hcalls]
    simp [hnil, Call.isWorkqueue]

theorem getElem?_of_take_eq {α : Type} (l l' : List α) (p : Nat) (a : α)
    (ht : l'.take l.length = l) (h : l[p]? = some a) : l'[p]? = some a := by
  have hlt : p < l.length := getElem?_lt_length l p a h
  have h2 : (l'.take l.length)[p]? = some a := by rw [ht]; exact h
  rw [List.getElem?_take_of_lt hlt] at h2
  exact h2

theorem releasesGetAnswer_ok_none (fault : Option Err) (indexer : List (String × Nat))
    (ns name : String) (p : Nat) (h : releasesGetAnswer fault indexer ns name = .ok p) :
    releasesGetAnswer none indexer ns name = .ok p := by
  unfold releasesGetAnswer at h
  cases fault with
  | some e => simp at h
  | none => exact h

theorem syncHandler_installation_rejected (w : World) (key ns name : String) (p : Nat)
    (r : Release) (e : Err)
    (hkey : SplitMetaNamespaceKey key = some (ns, name))
    (hget : releasesGetAnswer w.faults.releasesGet w.releasesIndexer ns name = .ok p)
    (hheap : w.heap[p]? = some r)
    (hl : w.faults.clustersList = none)
    (hi : createErr w.faults.installationTargetsCreate
        (installationTargetStored w.installationTargets r.ObjectMeta.Namespace r.ObjectMeta.Name)
        "installationtargets" r.ObjectMeta.Name = some e) :
    syncHandler w key =
      (.ret (some e),
        { w with
          heap := w.heap ++ [r]
          trace := w.trace ++
            [Call.releasesGet ns name none, Call.clustersList none,
             Call.installationTargetsCreate r.ObjectMeta.Namespace
               (NewInstallationTarget r (r.ObjectMeta.Namespace ++ "-0")
                 (some (w.clustersIndexer.map (fun c => c.Name)))) (some e)] }) := by
  unfold syncHandler
  simp only [hkey, releasesListerGet, hget, exceptErr, deepCopy, hheap, businessLogic,
    getElem?_length_append_singleton, computeTargetClusters, clustersListerList, hl,
    foldl_append_singleton_map, List.nil_append, installationTargetsCreate,
    NewInstallationTarget_name, hi]
  simp

theorem syncHandler_installation_created (w : World) (key ns name : String) (p : Nat)
    (r : Release)
    (hkey : SplitMetaNamespaceKey key = some (ns, name))
    (hget : releasesGetAnswer w.faults.releasesGet w.releasesIndexer ns name = .ok p)
    (hheap : w.heap[p]? = some r)
    (hl : w.faults.clustersList = none)
    (hi : createErr w.faults.installationTargetsCreate
        (installationTargetStored w.installationTargets r.ObjectMeta.Namespace r.ObjectMeta.Name)
        "installationtargets" r.ObjectMeta.Name = none) :
    (syncHandler w key).2.installationTargets = w.installationTargets ++
      [{ NewInstallationTarget r (r.ObjectMeta.Namespace ++ "-0")
            (some (w.clustersIndexer.map (fun c => c.Name))) with
         ObjectMeta := { Name := r.ObjectMeta.Name, Namespace := r.ObjectMeta.Namespace,
                         Labels := some [("release", r.ObjectMeta.Namespace ++ "-0")] } }] := by
  unfold syncHandler
  simp only [hkey, releasesListerGet, hget, exceptErr, deepCopy, hheap, businessLogic,
    getElem?_length_append_singleton, computeTargetClusters, clustersListerList, hl,
    foldl_append_singleton_map, List.nil_append, installationTargetsCreate,
    NewInstallationTarget_name, hi, trafficTargetsCreate, NewTrafficTarget_name]
  cases ht : createErr w.faults.trafficTargetsCreate
      (trafficTargetStored w.trafficTargets r.ObjectMeta.Namespace
        r.ObjectMeta.Name) "traffictargets" r.ObjectMeta.Name with
  | some e => simp [NewInstallationTarget_eq]
  | none =>
    simp only [capacityTargetsCreate, NewCapacityTarget_name]
    cases hc : createErr w.faults.capacityTargetsCreate
        (capacityTargetStored w.capacityTargets r.ObjectMeta.Namespace
          r.ObjectMeta.Name) "capacitytargets" r.ObjectMeta.Name with
    | some e => simp [NewInstallationTarget_eq]
    | none =>
      cases hlab : r.ObjectMeta.Labels with
      | none => simp [mapSet, hlab, NewInstallationTarget_eq]
      | some kvs =>
        simp only [mapSet, hlab, set_length_append_singleton,
          getElem?_length_append_singleton, releasesUpdate]
        cases hu : updateErr w.faults.releasesUpdate
            (releaseStored w.releases r.ObjectMeta.Namespace r.ObjectMeta.Name)
            r.ObjectMeta.Name with
        | some e => simp [NewInstallationTarget_eq]
        | none => simp [recorderEvent, NewInstallationTarget_eq]


/-- C3 (amended): a create that fails with AlreadyExists is not treated as
satisfied.  After a sync whose InstallationTarget create succeeded (whatever
happened later in that sync), a retry of the same key, even with all faults
gone, fails at the InstallationTarget create with AlreadyExists: syncHandler
returns that error, makes no further create, no update and emits no event, and
leaves Targets and durable Releases exactly as the first sync left them (no
duplicates).  In every world, an AlreadyExists answer to any Target create is
the returned error and the last call of that sync, with no Release update. -/
theorem syncHandler_retry_already_exists (w : World) (key ns name : String) (p : Nat)
    (r : Release) (clusters : List Cluster) (retryFaults : Faults)
    (hkey : SplitMetaNamespaceKey key = some (ns, name))
    (hget : (releasesListerGet w ns name).1 = .ok p)
    (hheap : w.heap[p]? = some r)
    (hlist : (clustersListerList w).1 = .ok clusters)
    (hIT : (installationTargetsCreate w r.ObjectMeta.Namespace
        (NewInstallationTarget r (r.ObjectMeta.Namespace ++ "-0")
          (some (clusters.map (fun c => c.Name))))).1 = none)
    (hf1 : retryFaults.releasesGet = none)
    (hf2 : retryFaults.clustersList = none)
    (hf3 : retryFaults.installationTargetsCreate = none) :
    syncHandler { (syncHandler w key).2 with faults := retryFaults } key =
        (.ret (some { reason := .AlreadyExists,
                      message := "installationtargets \"" ++ r.ObjectMeta.Name ++
                        "\" already exists" }),
          { (syncHandler w key).2 with
            faults := retryFaults
            heap := (syncHandler w key).2.heap ++ [r]
            trace := (syncHandler w key).2.trace ++
              [Call.releasesGet ns name none, Call.clustersList none,
               Call.installationTargetsCreate r.ObjectMeta.Namespace
                 (NewInstallationTarget r (r.ObjectMeta.Namespace ++ "-0")
                   (some (clusters.map (fun c => c.Name))))
                 (some { reason := .AlreadyExists,
                         message := "installationtargets \"" ++ r.ObjectMeta.Name ++
                           "\" already exists" })] }) ∧
      ∀ (w' : World) (key' : String) (c : Call) (e : Err),
        c ∈ newCalls w' (syncHandler w' key').2 → c.isCreate = true → c.err = some e →
        IsAlreadyExists e = true →
          (syncHandler w' key').1 = .ret (some e) ∧
          (newCalls w' (syncHandler w' key').2).getLast? = some c ∧
          (syncHandler w' key').2.releases = w'.releases ∧
          ∀ c' ∈ newCalls w' (syncHandler w' key').2, c'.isUpdate = false := by
  refine ⟨?_, ?_⟩
  · obtain ⟨hl, hcl⟩ := clustersListerList_ok w clusters hlist
    subst hcl
    rw [installationTargetsCreate_fst, NewInstallationTarget_name] at hIT
    rw [releasesListerGet_fst] at hget
    obtain ⟨h1, h2, _, h4, _⟩ := syncHandler_invariants w key
    have hcreated := syncHandler_installation_created w key ns name p r hkey hget hheap hl hIT
    have hheap1 : (syncHandler w key).2.heap[p]? = some r :=
      getElem?_of_take_eq w.heap _ p r h4 hheap
    have hstored : installationTargetStored (syncHandler w key).2.installationTargets
        r.ObjectMeta.Namespace r.ObjectMeta.Name = true := by
      rw [hcreated]
      simp [installationTargetStored]
    have hrej := syncHandler_installation_rejected
      { (syncHandler w key).2 with faults := retryFaults } key ns name p r
      { reason := .AlreadyExists,
        message := "installationtargets \"" ++ r.ObjectMeta.Name ++ "\" already exists" }
      hkey
      (by
        simp only [hf1, h1]
        exact releasesGetAnswer_ok_none _ _ _ _ _ hget)
      hheap1 hf2
      (by simp only [hf3, hstored, createErr]; simp)
    rw [hrej]
    simp [h2]
  · intro w' key' c e hc hcreate herr _
    obtain ⟨_, _, _, _, _, _, _, h8, _⟩ := syncHandler_invariants w' key'
    exact h8 c hc hcreate e herr


/-! ## Witnesses and counterexamples -/

/-- Witness of C2: end-to-end scenario 1 on `world1`. -/
theorem syncHandler_schedules_witness :
    (syncHandler world1 "ns/app-1").1 = .ret none ∧
    (syncHandler world1 "ns/app-1").2.releases =
      [{ ObjectMeta := { Name := "app-1", Namespace := "ns",
                         Labels := some [("phase", "WaitingForStrategy"), ("team", "x")] }
         Environment := { ShipmentOrder := { ClusterSelectors := none },
                          Clusters := some ["cluster-a", "cluster-b"] } }] ∧
    (syncHandler world1 "ns/app-1").2.installationTargets =
      [{ TypeMeta := { APIVersion := "stable.shipper/v1", Kind := "InstallationTarget" }
         ObjectMeta := { Name := "app-1", Namespace := "ns", Labels := some [("release", "ns-0")] }
         Spec := { Clusters := some ["cluster-a", "cluster-b"] }
         Status := { Clusters := some [{ Name := "cluster-a", Status := "unknown" },
                                       { Name := "cluster-b", Status := "unknown" }] } }] ∧
    ((syncHandler world1 "ns/app-1").2.trafficTargets.map (fun t => t.ObjectMeta.Name),
     (syncHandler world1 "ns/app-1").2.capacityTargets.map (fun t => t.ObjectMeta.Name))
      = (["app-1"], ["app-1"]) :=
  have h := syncHandler_schedules world1 "ns/app-1" "ns" "app-1" 0 app1
    [("phase", "WaitingForScheduling"), ("team", "x")]
    [{ Name := "cluster-a" }, { Name := "cluster-b" }]
    (by decide) rfl (by decide) (by decide) (by decide) (by decide) rfl
    (by decide) (by decide) (by decide) (by decide)
  ⟨h.1, h.2.2.1, h.2.2.2.1, by rw [h.2.2.2.2.1, h.2.2.2.2.2.1]; rfl⟩

/-- Witness of C8: end-to-end scenario 2, the Release is gone from the cache. -/
theorem syncHandler_fetch_error_witness :
    syncHandler worldDeleted "ns/app-1" =
      (.ret none,
        { worldDeleted with trace :=
            [Call.releasesGet "ns" "app-1"
               (some { reason := .NotFound, message := "release \"app-1\" not found" }),
             Call.handleError "release 'ns/app-1' in work queue no longer exists"] }) :=
  syncHandler_fetch_error worldDeleted "ns/app-1" "ns" "app-1"
    { reason := .NotFound, message := "release \"app-1\" not found" } (by decide) rfl

/-- Witness of C10: the business step on `ns/app-1`, which the filter admits. -/
theorem businessLogic_phase_write_safe_witness :
    (businessLogic world1 0).1 = .ret none ∧
    ∃ r', (businessLogic world1 0).2.heap[0]? = some r' ∧
      some r'.ObjectMeta.Labels = mapSet app1.ObjectMeta.Labels "phase" "WaitingForStrategy" ∧
      ∀ k, mapGet r'.ObjectMeta.Labels k =
        if k = "phase" then some "WaitingForStrategy" else mapGet app1.ObjectMeta.Labels k :=
  businessLogic_phase_write_safe world1 0 app1 [{ Name := "cluster-a" }, { Name := "cluster-b" }]
    (by decide) (by decide) rfl (by decide) (by decide) (by decide)

/-- Counterexample to C3: end-to-end scenario 3.  On the retry after a transient
TrafficTarget failure the InstallationTarget create answers AlreadyExists;
syncHandler returns that error, the create is the last call, no TrafficTarget
is created and the Release stays unscheduled. -/
theorem retry_surfaces_already_exists :
    (syncHandler worldRetry "ns/app-1").1 =
        .ret (some { reason := .AlreadyExists,
                     message := "installationtargets \"app-1\" already exists" }) ∧
      (syncHandler worldRetry "ns/app-1").2.trace.map Call.err =
        [none, none, some { reason := .AlreadyExists,
                            message := "installationtargets \"app-1\" already exists" }] ∧
      (syncHandler worldRetry "ns/app-1").2.trace.map Call.isCreate = [false, false, true] ∧
      (syncHandler worldRetry "ns/app-1").2.trafficTargets = [] ∧
      (syncHandler worldRetry "ns/app-1").2.releases = [app1] := by
  decide

/-- Witness of the amended C3: the first sync on `worldTrafficFails` creates the
InstallationTarget and then fails; the retry without faults gets
AlreadyExists. -/
theorem syncHandler_retry_already_exists_witness :
    (syncHandler { (syncHandler worldTrafficFails "ns/app-1").2 with faults := noFaults }
        "ns/app-1").1 =
      .ret (some { reason := .AlreadyExists,
                   message := "installationtargets \"app-1\" already exists" }) :=
  congrArg Prod.fst
    (syncHandler_retry_already_exists worldTrafficFails "ns/app-1" "ns" "app-1" 0 app1
      [{ Name := "cluster-a" }, { Name := "cluster-b" }] noFaults
      (by decide) rfl (by decide) rfl (by decide) rfl rfl rfl).1

/-- Counterexample to C4: the cluster list fails, syncHandler returns the
error, and processNextWorkItem returns true after exactly two further calls:
Done on the key and HandleError with the wrapped error.  Its only work-queue
call is that Done: the key is not re-enqueued. -/
theorem failed_sync_not_requeued :
    (syncHandler worldListFails "ns/app-1").1 = .ret (some transientErr) ∧
      (processNextWorkItem worldListFails (.str "ns/app-1") false).1 = .ret true ∧
      (processNextWorkItem worldListFails (.str "ns/app-1") false).2.trace =
        [Call.releasesGet "ns" "app-1" none,
         Call.clustersList (some transientErr),
         Call.workqueueDone (.str "ns/app-1"),
         Call.handleError "error syncing: 'ns/app-1': connection refused"] ∧
      (processNextWorkItem worldListFails (.str "ns/app-1") false).2.trace.filter
          Call.isWorkqueue = [Call.workqueueDone (.str "ns/app-1")] ∧
      Call.workqueueAddRateLimited (.str "ns/app-1") ∉
        (processNextWorkItem worldListFails (.str "ns/app-1") false).2.trace := by
  decide

end Shipper
